import Mathlib

/-!
Verification of the jarvis reminder-delivery client against its source.

The embedding covers:
* `src/frontend/src/hooks/useWebSocket.ts` — the client session's WebSocket
  lifecycle (connect, disconnect, reconnect timer, message handling), modelled
  as an explicit state machine `step` over `ClientState` driven by `Event`s,
  emitting observable `Output`s.
* `src/unnamed/part_001` (App.tsx) — the onMessage callback wired into the
  hook and the fixed 30-second unread poll interval.
* `src/unnamed/part_013` (utils/notification.ts) — pure notification
  functions `requestNotificationPermission`, `showNotification`,
  `showReminderNotification`.
* `src/migrate_add_app_id_to_reminders.sql` — the app_id backfill UPDATEs.
* `src/unnamed/part_012` (types.ts) / `src/docs/ARCHITECTURE.md` — the
  WebSocket message shape.
* The backend Record Store (`mark_read`) and `create_reminder_log` app-id
  defaulting are not present in the source tree; they are modelled from the
  spec and the repository documentation, and marked as such.
-/

namespace Jarvis

/-- Browser WebSocket readyState values (CONNECTING, OPEN, CLOSING, CLOSED).
`opened` stands for the browser constant OPEN. -/
inductive ReadyState
  | connecting
  | opened
  | closing
  | closed
deriving DecidableEq

/-- A WebSocket object created by `connectWebSocket`, identified by creation
order (`sid`), carrying its current readyState. -/
structure Socket where
  sid : Nat
  state : ReadyState
deriving DecidableEq

/-- Browser Notification.permission values. `default` is the browser's
initial (not yet asked) state. -/
inductive Permission
  | granted
  | denied
  | default
deriving DecidableEq

/-- The data object of a push message, with the fields documented in
src/docs/ARCHITECTURE.md (WebSocket 消息格式): id, task_id, type, content,
time, app_id.  In the spec's vocabulary (§3, §6): id = record identity,
task_id = source_entity_id, type = kind, time = created_at,
app_id = origin_app_id. -/
structure PushData where
  id : Nat
  task_id : Nat
  type : String
  content : Option String
  time : String
  app_id : Option String
deriving DecidableEq

/-- WebSocketMessage from src/unnamed/part_012 (types.ts):
type, data, timestamp.  The TS `data: any` is modelled as the push data,
optional because App.tsx guards on `message.data` being present. -/
structure WebSocketMessage where
  type : String
  data : Option PushData
  timestamp : String
deriving DecidableEq

/-- An incoming WebSocket frame as seen by ws.onmessage: either its payload
parses as JSON into a message (`ok`), or JSON.parse throws (`bad`). -/
inductive Frame
  | ok (m : WebSocketMessage)
  | bad (raw : String)
deriving DecidableEq

/-- Options argument of showNotification (src/unnamed/part_013); fields the
caller may omit are Options. -/
structure NotifOptions where
  title : String
  body : Option String := none
  icon : Option String := none
  badge : Option String := none
  tag : Option String := none
  requireInteraction : Option Bool := none
  silent : Option Bool := none
deriving DecidableEq

/-- A constructed browser Notification with the attributes showNotification
passes to the Notification constructor. -/
structure BrowserNotification where
  title : String
  body : Option String
  icon : String
  badge : String
  tag : String
  requireInteraction : Bool
  silent : Bool
deriving DecidableEq

/-- requestNotificationPermission from src/unnamed/part_013.
`hasAPI` models `'Notification' in window`; `current` models
Notification.permission; `userChoice` models the outcome of the browser's
Notification.requestPermission() prompt. -/
def requestNotificationPermission (hasAPI : Bool) (current userChoice : Permission) :
    Permission :=
  if hasAPI = false then Permission.denied
  else
    match current with
    | Permission.granted => Permission.granted
    | Permission.denied => Permission.denied
    | Permission.default => userChoice

/-- The notificationOptions record built inside showNotification: defaults
applied for icon, badge, tag, requireInteraction, silent, after which the
caller's own fields win (the TS object spread `...options` comes last). -/
def buildNotification (o : NotifOptions) : BrowserNotification :=
  { title := o.title
    body := o.body
    icon := o.icon.getD "/icon.svg"
    badge := o.badge.getD "/icon.svg"
    tag := o.tag.getD "jarvis-reminder"
    requireInteraction := o.requireInteraction.getD true
    silent := o.silent.getD false }

/-- showNotification from src/unnamed/part_013: returns null (`none`) when
the Notification API is unavailable, when the effective permission is not
granted, or when the Notification constructor throws (`ctorFails`); otherwise
returns the constructed notification. -/
def showNotification (hasAPI : Bool) (current userChoice : Permission)
    (ctorFails : Bool) (o : NotifOptions) : Option BrowserNotification :=
  if hasAPI = false then none
  else if requestNotificationPermission hasAPI current userChoice ≠ Permission.granted then
    none
  else if ctorFails = true then none
  else some (buildNotification o)

/-- The reminderType label chain at the top of showReminderNotification. -/
def reminderTypeLabel (t : String) : String :=
  if t = "interval" then "间隔提醒"
  else if t = "daily" then "每日汇总"
  else if t = "subtask" then "子任务提醒"
  else if t = "todo" then "TODO 提醒"
  else "提醒"

/-- The options record showReminderNotification passes to showNotification:
title from the kind label, body from content with a fallback, tag
`reminder-` ++ id, requireInteraction true. -/
def reminderNotifOptions (d : PushData) : NotifOptions :=
  { title := "Jarvis " ++ reminderTypeLabel d.type
    body := some (d.content.getD "您有新的提醒")
    tag := some ("reminder-" ++ toString d.id)
    requireInteraction := some true }

/-- showReminderNotification from src/unnamed/part_013. -/
def showReminderNotification (hasAPI : Bool) (current userChoice : Permission)
    (ctorFails : Bool) (d : PushData) : Option BrowserNotification :=
  showNotification hasAPI current userChoice ctorFails (reminderNotifOptions d)

/-- Browser-environment facts fixed for a session: whether the Notification
API exists, the current permission, the user's answer to a permission prompt,
and whether the Notification constructor throws. -/
structure Env where
  hasAPI : Bool
  permission : Permission
  userChoice : Permission
  ctorFails : Bool
deriving DecidableEq

/-- State of one client session: every socket ever created by
connectWebSocket (in creation order), the id for the next socket, the
wsRef.current reference, the pending reconnect timeout delay (ms) if any,
and the in-app unread reminder list (by record id) kept by App.tsx. -/
structure ClientState where
  sockets : List Socket
  nextSid : Nat
  wsRef : Option Nat
  reconnectTimer : Option Nat
  reminders : List Nat
deriving DecidableEq

/-- Observable effects of a step. -/
inductive Output
  | socketCreated (sid : Nat)
  | closeCalled (sid : Nat)
  | timerSet (delayMs : Nat)
  | timerCleared
  | callbackInvoked (m : WebSocketMessage)
  | notified (tag : String)
  | polled
deriving DecidableEq

/-- Events driving a session: the two hook API calls, socket lifecycle
callbacks delivered by the browser, an incoming frame, the reconnect timeout
elapsing, and the 30-second poll interval tick (carrying the fetched unread
ids). -/
inductive Event
  | apiConnect
  | apiDisconnect
  | socketOpened (sid : Nat)
  | socketClosed (sid : Nat)
  | frame (sid : Nat) (f : Frame)
  | timerFired
  | pollTick (unread : List Nat)
deriving DecidableEq

/-- Delay passed to setTimeout in ws.onclose. -/
def reconnectDelayMs : Nat := 3000

/-- Interval passed to setInterval(loadReminders, ...) in App.tsx. -/
def pollIntervalMs : Nat := 30000

/-- Find the socket with the given id. -/
def lookupSocket (l : List Socket) (i : Nat) : Option Socket :=
  l.find? (fun sk => sk.sid == i)

/-- Replace the readyState of the socket with the given id. -/
def setSocketState (l : List Socket) (i : Nat) (st : ReadyState) : List Socket :=
  l.map (fun sk => if sk.sid = i then { sk with state := st } else sk)

/-- The guard `wsRef.current?.readyState === WebSocket.OPEN` at the top of
connectWebSocket. -/
def refOpen (s : ClientState) : Bool :=
  match s.wsRef with
  | none => false
  | some i =>
    match lookupSocket s.sockets i with
    | none => false
    | some sk =>
      match sk.state with
      | ReadyState.opened => true
      | _ => false

/-- connectWebSocket from useWebSocket.ts: if the referenced socket is OPEN,
return immediately; otherwise create a fresh WebSocket (readyState
CONNECTING), install its handlers, and store it in wsRef.current. -/
def connectWebSocket (s : ClientState) : ClientState × List Output :=
  if refOpen s then (s, [])
  else
    ({ s with
        sockets := s.sockets ++ [{ sid := s.nextSid, state := ReadyState.connecting }]
        wsRef := some s.nextSid
        nextSid := s.nextSid + 1 },
      [Output.socketCreated s.nextSid])

/-- ws.close() moves a CONNECTING or OPEN socket to CLOSING; the onclose
callback fires later as a separate `Event.socketClosed`. -/
def closeSocket (l : List Socket) (i : Nat) : List Socket :=
  l.map (fun sk =>
    if sk.sid = i then
      match sk.state with
      | ReadyState.connecting => { sk with state := ReadyState.closing }
      | ReadyState.opened => { sk with state := ReadyState.closing }
      | _ => sk
    else sk)

/-- disconnectWebSocket from useWebSocket.ts: clear the pending reconnect
timer if any, then close and drop the referenced socket if any. -/
def disconnectWebSocket (s : ClientState) : ClientState × List Output :=
  let cleared :=
    match s.reconnectTimer with
    | some _ => [Output.timerCleared]
    | none => []
  match s.wsRef with
  | some i =>
      ({ s with reconnectTimer := none, sockets := closeSocket s.sockets i, wsRef := none },
        cleared ++ [Output.closeCalled i])
  | none => ({ s with reconnectTimer := none, wsRef := none }, cleared)

/-- ws.onmessage combined with the onMessage callback App.tsx registers:
JSON.parse failure is caught (no callback, nothing changes); a parsed message
is handed to the callback, and when it is a reminder message with data the
callback shows the reminder notification and issues a loadReminders fetch. -/
def handleFrame (env : Env) (s : ClientState) (f : Frame) : ClientState × List Output :=
  match f with
  | Frame.bad _ => (s, [])
  | Frame.ok m =>
      if m.type = "reminder" then
        match m.data with
        | some d =>
            let notifOut :=
              match showReminderNotification env.hasAPI env.permission env.userChoice
                  env.ctorFails d with
              | some n => [Output.notified n.tag]
              | none => []
            (s, Output.callbackInvoked m :: notifOut ++ [Output.polled])
        | none => (s, [Output.callbackInvoked m])
      else (s, [Output.callbackInvoked m])

/-- One step of the client session.
apiConnect / apiDisconnect are the hook's two exported functions.
socketOpened runs ws.onopen (clear the pending reconnect timer).
socketClosed runs ws.onclose (schedule a reconnect in 3000 ms) — the
handlers stay installed on the socket even after wsRef is dropped.
frame runs ws.onmessage when the socket is open.
timerFired runs the scheduled connectWebSocket.
pollTick is App.tsx's setInterval(loadReminders, 30000) tick storing the
fetched unread set. -/
def step (env : Env) (s : ClientState) : Event → ClientState × List Output
  | Event.apiConnect => connectWebSocket s
  | Event.apiDisconnect => disconnectWebSocket s
  | Event.socketOpened i =>
      match lookupSocket s.sockets i with
      | some sk =>
          match sk.state with
          | ReadyState.connecting =>
              match s.reconnectTimer with
              | some _ =>
                  ({ s with sockets := setSocketState s.sockets i ReadyState.opened
                            reconnectTimer := none },
                    [Output.timerCleared])
              | none =>
                  ({ s with sockets := setSocketState s.sockets i ReadyState.opened }, [])
          | _ => (s, [])
      | none => (s, [])
  | Event.socketClosed i =>
      match lookupSocket s.sockets i with
      | some sk =>
          match sk.state with
          | ReadyState.closed => (s, [])
          | _ =>
              ({ s with sockets := setSocketState s.sockets i ReadyState.closed
                        reconnectTimer := some reconnectDelayMs },
                [Output.timerSet reconnectDelayMs])
      | none => (s, [])
  | Event.frame i f =>
      match lookupSocket s.sockets i with
      | some sk =>
          match sk.state with
          | ReadyState.opened => handleFrame env s f
          | _ => (s, [])
      | none => (s, [])
  | Event.timerFired =>
      match s.reconnectTimer with
      | some _ => connectWebSocket { s with reconnectTimer := none }
      | none => (s, [])
  | Event.pollTick unread => ({ s with reminders := unread }, [Output.polled])

/-- Initial session state (fresh mount, nothing connected). -/
def initState : ClientState :=
  { sockets := [], nextSid := 0, wsRef := none, reconnectTimer := none, reminders := [] }

/-- Run a sequence of events, accumulating outputs. -/
def run (env : Env) : ClientState → List Event → ClientState × List Output
  | s, [] => (s, [])
  | s, e :: es =>
      let p := step env s e
      let q := run env p.1 es
      (q.1, p.2 ++ q.2)

/-- A benign browser environment used for concrete evaluations. -/
def env0 : Env :=
  { hasAPI := true, permission := Permission.granted, userChoice := Permission.granted
    ctorFails := false }

example : (run env0 initState [Event.apiConnect]).2 = [Output.socketCreated 0] := by decide

/-- Modelled from the spec: the Record Store's `mark_read` operation
(§4.2) — the backend reminder service is not in the source tree (only its
frontend caller `reminderApi.markAsRead` in src/unnamed/part_010 and the
contract in §4.2).  A stored Reminder Record is immutable except for its
read bit; `mark_read id` sets the read bit of the record with that id and
touches nothing else. -/
structure StoredReminder where
  id : Nat
  is_read : Bool
  content : String
deriving DecidableEq

/-- Modelled from the spec: `mark_read` over the store, represented as the
list of stored records.  It returns a new store; it never raises and never
removes a record. -/
def mark_read (i : Nat) (store : List StoredReminder) : List StoredReminder :=
  store.map (fun r => if r.id = i then { r with is_read := true } else r)

/-- Modelled from the spec and src/docs/ARCHITECTURE.md (create_reminder_log
参数说明): the app-id defaulting used by the ad-hoc raise API, whose backend
implementation is not in the source tree.  An explicit app_id wins;
otherwise interval/daily/subtask map to "tasks", todo/todo_daily map to
"todo", and any other kind yields none. -/
def deriveAppId (explicit : Option String) (kind : String) : Option String :=
  match explicit with
  | some a => some a
  | none =>
      if kind ∈ (["interval", "daily", "subtask"] : List String) then some "tasks"
      else if kind ∈ (["todo", "todo_daily"] : List String) then some "todo"
      else none

/-- A reminder_logs row as touched by src/migrate_add_app_id_to_reminders.sql. -/
structure ReminderRow where
  reminder_type : String
  app_id : Option String
deriving DecidableEq

/-- The first UPDATE of the migration: SET app_id = 'tasks' WHERE
reminder_type IN ('interval','daily','subtask') AND app_id IS NULL. -/
def migrateSetTasks (r : ReminderRow) : ReminderRow :=
  if r.reminder_type ∈ (["interval", "daily", "subtask"] : List String) ∧ r.app_id = none
  then { r with app_id := some "tasks" }
  else r

/-- The second UPDATE of the migration: SET app_id = 'todo' WHERE
reminder_type IN ('todo','todo_daily') AND app_id IS NULL. -/
def migrateSetTodo (r : ReminderRow) : ReminderRow :=
  if r.reminder_type ∈ (["todo", "todo_daily"] : List String) ∧ r.app_id = none
  then { r with app_id := some "todo" }
  else r

/-- Both migration UPDATEs, in script order. -/
def migrateAppId (r : ReminderRow) : ReminderRow :=
  migrateSetTodo (migrateSetTasks r)

/-- A Reminder Record as stored by the backend, with the column names of the
ReminderLog row (src/unnamed/part_012) plus app_id.  Spec vocabulary (§3):
task_id = source_entity_id, reminder_type = kind, reminder_time =
created_at, app_id = origin_app_id. -/
structure ReminderRecord where
  id : Nat
  task_id : Nat
  reminder_type : String
  content : Option String
  reminder_time : String
  is_read : Bool
  app_id : Option String
deriving DecidableEq

/-- Modelled from the spec: the server-to-client push message built for
broadcast_reminder — the backend websocket module is not in the source
tree; the construction follows src/docs/ARCHITECTURE.md (发送 WebSocket 通知
and WebSocket 消息格式): the data dict carries id, task_id,
type (= reminder_type), content, time (= reminder_time) and app_id, inside
an envelope with type "reminder" and a timestamp. -/
def broadcastMessage (r : ReminderRecord) (timestamp : String) : WebSocketMessage :=
  { type := "reminder"
    data := some
      { id := r.id, task_id := r.task_id, type := r.reminder_type
        content := r.content, time := r.reminder_time, app_id := r.app_id }
    timestamp := timestamp }

/-- C7: every server-to-client push message has the documented shape —
envelope type "reminder" plus timestamp, and a data object carrying exactly
the record identity (id), its source entity id (task_id), its kind (type),
its content text, its raise time (time) and its origin app id (app_id); the
read bit is not part of the payload. -/
theorem push_message_shape (r : ReminderRecord) (ts : String) :
    (broadcastMessage r ts).type = "reminder"
    ∧ (broadcastMessage r ts).data =
        some { id := r.id, task_id := r.task_id, type := r.reminder_type
               content := r.content, time := r.reminder_time, app_id := r.app_id }
    ∧ (broadcastMessage r ts).timestamp = ts :=
  ⟨rfl, rfl, rfl⟩

/-- C9: `mark_read` is idempotent — applying it twice yields exactly the
store obtained by applying it once; it never deletes a record; and applied
to a store whose matching records are already read it is a no-op. -/
theorem mark_read_idempotent (i : Nat) (store : List StoredReminder) :
    mark_read i (mark_read i store) = mark_read i store
    ∧ (mark_read i store).length = store.length
    ∧ ((∀ r ∈ store, r.id = i → r.is_read = true) → mark_read i store = store) := by
  refine ⟨?_, ?_, ?_⟩
  · induction store with
    | nil => rfl
    | cons r rs ih =>
        by_cases h : r.id = i <;> simp [mark_read, h] at ih ⊢ <;> exact ih
  · simp [mark_read]
  · intro h
    induction store with
    | nil => rfl
    | cons r rs ih =>
        have hr := h r (List.mem_cons_self r rs)
        by_cases hid : r.id = i
        · have hread := hr hid
          have htail : mark_read i rs = rs := by
            apply ih
            intro x hx hxid
            exact h x (List.mem_cons_of_mem r hx) hxid
          cases r
          simp [mark_read, hid] at hread htail ⊢
          simp_all [mark_read]
        · have htail : mark_read i rs = rs := by
            apply ih
            intro x hx hxid
            exact h x (List.mem_cons_of_mem r hx) hxid
          simp [mark_read, hid] at htail ⊢
          simp_all [mark_read]

/-- C9 witness: on a concrete two-record store, marking id 1 twice equals
marking it once, and marking the already-read id 2 is a no-op. -/
theorem mark_read_idempotent_witness :
    mark_read 1 (mark_read 1 [⟨1, false, "a"⟩, ⟨2, true, "b"⟩]) =
      mark_read 1 [⟨1, false, "a"⟩, ⟨2, true, "b"⟩]
    ∧ mark_read 2 [⟨1, false, "a"⟩, ⟨2, true, "b"⟩] = [⟨1, false, "a"⟩, ⟨2, true, "b"⟩] :=
  ⟨(mark_read_idempotent 1 [⟨1, false, "a"⟩, ⟨2, true, "b"⟩]).1,
   (mark_read_idempotent 2 [⟨1, false, "a"⟩, ⟨2, true, "b"⟩]).2.2 (by decide)⟩

/-- C8: app-id defaulting precedence for the ad-hoc raise API — an explicit
origin app id always wins; otherwise interval, daily and subtask map to
"tasks", todo and todo_daily map to "todo", and every other kind yields
none; and the in-source migration SQL backfill agrees with this derivation
on every row. -/
theorem origin_app_id_precedence (a k : String) (r : ReminderRow)
    (h1 : k ∉ (["interval", "daily", "subtask"] : List String))
    (h2 : k ∉ (["todo", "todo_daily"] : List String)) :
    deriveAppId (some a) k = some a
    ∧ deriveAppId none "interval" = some "tasks"
    ∧ deriveAppId none "daily" = some "tasks"
    ∧ deriveAppId none "subtask" = some "tasks"
    ∧ deriveAppId none "todo" = some "todo"
    ∧ deriveAppId none "todo_daily" = some "todo"
    ∧ deriveAppId none k = none
    ∧ (migrateAppId r).app_id = deriveAppId r.app_id r.reminder_type := by
  refine ⟨rfl, by decide, by decide, by decide, by decide, by decide, ?_, ?_⟩
  · simp [deriveAppId, h1, h2]
  · obtain ⟨t, app⟩ := r
    cases app with
    | some x => simp [migrateAppId, migrateSetTasks, migrateSetTodo, deriveAppId]
    | none =>
        by_cases ht : t ∈ (["interval", "daily", "subtask"] : List String)
        · simp [migrateAppId, migrateSetTasks, migrateSetTodo, deriveAppId, ht]
        · by_cases htd : t ∈ (["todo", "todo_daily"] : List String)
          · simp [migrateAppId, migrateSetTasks, migrateSetTodo, deriveAppId, ht, htd]
          · simp [migrateAppId, migrateSetTasks, migrateSetTodo, deriveAppId, ht, htd]

/-- C8 witness: with kind "custom", an explicit app id wins and the omitted
app id derives to none; the migration leaves such a row untouched. -/
theorem origin_app_id_precedence_witness :
    deriveAppId (some "my_app") "custom" = some "my_app"
    ∧ deriveAppId none "custom" = none
    ∧ (migrateAppId ⟨"custom", none⟩).app_id = deriveAppId none "custom" := by
  have h := origin_app_id_precedence "my_app" "custom" ⟨"custom", none⟩ (by decide) (by decide)
  exact ⟨h.1, h.2.2.2.2.2.2.1, h.2.2.2.2.2.2.2⟩

/-- Any notification actually produced by showNotification carries the tag
from its options (with the "jarvis-reminder" fallback when absent). -/
theorem showNotification_some_tag (hasAPI : Bool) (cu uc : Permission) (cf : Bool)
    (o : NotifOptions) (n : BrowserNotification)
    (h : showNotification hasAPI cu uc cf o = some n) :
    n.tag = o.tag.getD "jarvis-reminder" := by
  unfold showNotification at h
  split_ifs at h
  injection h with h
  subst h
  rfl

/-- C3: reminder alerts are deduplicated by record identity — the
notification tag is "reminder-" followed by the record id, so two push
messages carrying the same id always yield notifications with the identical
tag (the browser collapses same-tag notifications). -/
theorem reminder_notification_tag_deduplicates_by_id (d1 d2 : PushData)
    (h : d1.id = d2.id) :
    (reminderNotifOptions d1).tag = some ("reminder-" ++ toString d1.id)
    ∧ (reminderNotifOptions d1).tag = (reminderNotifOptions d2).tag
    ∧ (∀ (hasAPI : Bool) (cu uc : Permission) (cf : Bool) (n1 n2 : BrowserNotification),
        showReminderNotification hasAPI cu uc cf d1 = some n1 →
        showReminderNotification hasAPI cu uc cf d2 = some n2 →
        n1.tag = n2.tag) := by
  refine ⟨rfl, by simp [reminderNotifOptions, h], ?_⟩
  intro hasAPI cu uc cf n1 n2 h1 h2
  have t1 := showNotification_some_tag hasAPI cu uc cf (reminderNotifOptions d1) n1 h1
  have t2 := showNotification_some_tag hasAPI cu uc cf (reminderNotifOptions d2) n2 h2
  rw [t1, t2]
  simp [reminderNotifOptions, h]

/-- C3 witness: two concrete push payloads with the same id 5 but different
kinds and contents produce the same tag "reminder-5", and two delivered
notifications for them carry identical tags. -/
theorem reminder_notification_tag_deduplicates_by_id_witness :
    (reminderNotifOptions ⟨5, 0, "interval", none, "t1", none⟩).tag = some "reminder-5"
    ∧ (reminderNotifOptions ⟨5, 0, "interval", none, "t1", none⟩).tag =
        (reminderNotifOptions ⟨5, 3, "todo", some "hi", "t2", some "todo"⟩).tag := by
  have h := reminder_notification_tag_deduplicates_by_id
    ⟨5, 0, "interval", none, "t1", none⟩ ⟨5, 3, "todo", some "hi", "t2", some "todo"⟩ rfl
  exact ⟨by rw [h.1]; decide, h.2.1⟩

/-- C5: permission denial degrades gracefully — whenever the effective
permission is not granted (which covers the API being unavailable),
showNotification returns none for every options value without raising; the
fixed-interval poll still refreshes the in-app unread list in every state
and for every environment; and under such an environment a reminder push
still invokes the poll path while producing no user-visible alert. -/
theorem permission_denied_degrades_gracefully (hasAPI : Bool) (cu uc : Permission)
    (cf : Bool) (o : NotifOptions)
    (hdeny : requestNotificationPermission hasAPI cu uc ≠ Permission.granted) :
    showNotification hasAPI cu uc cf o = none
    ∧ (∀ (env : Env) (s : ClientState) (unread : List Nat),
        step env s (Event.pollTick unread) = ({ s with reminders := unread }, [Output.polled]))
    ∧ (∀ (s : ClientState) (i : Nat) (d : PushData) (ts : String),
        lookupSocket s.sockets i = some ⟨i, ReadyState.opened⟩ →
        (∀ t, Output.notified t ∉
          (step ⟨hasAPI, cu, uc, cf⟩ s
            (Event.frame i (Frame.ok ⟨"reminder", some d, ts⟩))).2)
        ∧ Output.polled ∈
          (step ⟨hasAPI, cu, uc, cf⟩ s
            (Event.frame i (Frame.ok ⟨"reminder", some d, ts⟩))).2) := by
  have hnone : ∀ oo : NotifOptions, showNotification hasAPI cu uc cf oo = none := by
    intro oo
    cases hasAPI <;> simp [showNotification, hdeny]
  refine ⟨hnone o, fun env s unread => rfl, ?_⟩
  intro s i d ts hfind
  have hrem : showReminderNotification hasAPI cu uc cf d = none := hnone _
  constructor
  · intro t
    simp [step, hfind, handleFrame, hrem]
  · simp [step, hfind, handleFrame, hrem]

/-- C5 witness: with the API present but permission denied, a concrete
notification request yields none, and a poll tick still stores the fetched
unread id 7 in the in-app list. -/
theorem permission_denied_degrades_gracefully_witness :
    showNotification true Permission.denied Permission.denied false
      (reminderNotifOptions ⟨5, 0, "interval", none, "t1", none⟩) = none
    ∧ (step env0
        { sockets := [⟨0, ReadyState.opened⟩], nextSid := 1, wsRef := some 0
          reconnectTimer := none, reminders := [] }
        (Event.pollTick [7])).1.reminders = [7] := by
  have h := permission_denied_degrades_gracefully true Permission.denied Permission.denied
    false (reminderNotifOptions ⟨5, 0, "interval", none, "t1", none⟩) (by decide)
  refine ⟨h.1, ?_⟩
  rw [h.2.1 env0
    { sockets := [⟨0, ReadyState.opened⟩], nextSid := 1, wsRef := some 0
      reconnectTimer := none, reminders := [] } [7]]

/-- C6: at most one live logical connection per session — calling
connectWebSocket while the referenced socket is already OPEN returns
immediately, changing nothing and creating no socket; and every successful
connect appends exactly one socket and replaces the single stored reference
with it (wsRef holds at most one socket at all times, being an Option). -/
theorem single_logical_connection (env : Env) (s : ClientState) :
    (refOpen s = true → step env s Event.apiConnect = (s, []))
    ∧ (refOpen s = false →
        step env s Event.apiConnect =
          ({ s with
              sockets := s.sockets ++ [⟨s.nextSid, ReadyState.connecting⟩]
              wsRef := some s.nextSid
              nextSid := s.nextSid + 1 },
            [Output.socketCreated s.nextSid])) := by
  constructor
  · intro h
    simp [step, connectWebSocket, h]
  · intro h
    simp [step, connectWebSocket, h]

/-- C6 witness: with socket 0 open and referenced, a second connect call is
a no-op; from the fresh state, connecting creates socket 0 and stores the
single reference to it. -/
theorem single_logical_connection_witness :
    step env0
      { sockets := [⟨0, ReadyState.opened⟩], nextSid := 1, wsRef := some 0
        reconnectTimer := none, reminders := [] } Event.apiConnect =
      ({ sockets := [⟨0, ReadyState.opened⟩], nextSid := 1, wsRef := some 0
         reconnectTimer := none, reminders := [] }, [])
    ∧ step env0 initState Event.apiConnect =
        ({ sockets := [⟨0, ReadyState.connecting⟩], nextSid := 1, wsRef := some 0
           reconnectTimer := none, reminders := [] }, [Output.socketCreated 0]) := by
  refine ⟨(single_logical_connection env0 _).1 rfl, ?_⟩
  have h := (single_logical_connection env0 initState).2 rfl
  simpa [initState] using h

/-- On a timer fire with a pending reconnect timer, the session runs
connectWebSocket with the timer no longer pending. -/
theorem step_timerFired_eq (env : Env) (t : ClientState)
    (h : t.reconnectTimer ≠ none) :
    step env t Event.timerFired = connectWebSocket { t with reconnectTimer := none } := by
  cases htm : t.reconnectTimer with
  | none => exact absurd htm h
  | some d => simp [step, htm]

/-- C2: every close of a not-already-closed socket schedules exactly one
reconnect attempt with the fixed 3000 ms delay — the step emits a single
timerSet 3000, leaves a pending 3000 ms timer, creates and closes no
sockets (no retry cap or counter exists in the state, so this holds on
every close, indefinitely), the delay is nonzero (no tight loop), and when
the timer fires the session re-runs connectWebSocket. -/
theorem reconnect_fixed_delay_every_close (env : Env) (s : ClientState) (i : Nat)
    (sk : Socket) (hfind : lookupSocket s.sockets i = some sk)
    (hnc : sk.state ≠ ReadyState.closed) :
    (step env s (Event.socketClosed i)).2 = [Output.timerSet reconnectDelayMs]
    ∧ (step env s (Event.socketClosed i)).1.reconnectTimer = some reconnectDelayMs
    ∧ (step env s (Event.socketClosed i)).1.sockets.length = s.sockets.length
    ∧ reconnectDelayMs = 3000
    ∧ 0 < reconnectDelayMs
    ∧ (∀ t : ClientState, t.reconnectTimer ≠ none →
        step env t Event.timerFired = connectWebSocket { t with reconnectTimer := none }) := by
  obtain ⟨sid, st⟩ := sk
  have hstep :
      step env s (Event.socketClosed i) =
        ({ s with sockets := setSocketState s.sockets i ReadyState.closed
                  reconnectTimer := some reconnectDelayMs },
          [Output.timerSet reconnectDelayMs]) := by
    cases st with
    | closed => exact absurd rfl hnc
    | connecting => simp [step, hfind]
    | opened => simp [step, hfind]
    | closing => simp [step, hfind]
  rw [hstep]
  refine ⟨rfl, rfl, ?_, rfl, by decide, step_timerFired_eq env⟩
  simp [setSocketState]

/-- C2 witness: closing the single open socket of a connected session emits
exactly one timerSet 3000 and leaves a pending 3000 ms reconnect timer. -/
theorem reconnect_fixed_delay_every_close_witness :
    (step env0
      { sockets := [⟨0, ReadyState.opened⟩], nextSid := 1, wsRef := some 0
        reconnectTimer := none, reminders := [] }
      (Event.socketClosed 0)).2 = [Output.timerSet reconnectDelayMs]
    ∧ (step env0
        { sockets := [⟨0, ReadyState.opened⟩], nextSid := 1, wsRef := some 0
          reconnectTimer := none, reminders := [] }
        (Event.socketClosed 0)).1.reconnectTimer = some 3000 := by
  have h := reconnect_fixed_delay_every_close env0
    { sockets := [⟨0, ReadyState.opened⟩], nextSid := 1, wsRef := some 0
      reconnectTimer := none, reminders := [] } 0 ⟨0, ReadyState.opened⟩ rfl (by decide)
  exact ⟨h.1, h.2.1⟩

/-- C10: a frame whose payload is not valid JSON is swallowed by the
onmessage handler — the session state is unchanged (the socket stays open),
the onMessage callback is not invoked for that frame, the handler returns
normally (it is a total function), and a subsequent well-formed frame on the
same socket still reaches the callback. -/
theorem bad_frame_is_swallowed (env : Env) (s : ClientState) (i : Nat) (raw : String)
    (hfind : lookupSocket s.sockets i = some ⟨i, ReadyState.opened⟩) :
    step env s (Event.frame i (Frame.bad raw)) = (s, [])
    ∧ (∀ m, Output.callbackInvoked m ∉ (step env s (Event.frame i (Frame.bad raw))).2)
    ∧ (∀ m, Output.callbackInvoked m ∈ (step env s (Event.frame i (Frame.ok m))).2) := by
  have hbad : step env s (Event.frame i (Frame.bad raw)) = (s, []) := by
    simp [step, hfind, handleFrame]
  refine ⟨hbad, ?_, ?_⟩
  · intro m
    rw [hbad]
    simp
  · intro m
    by_cases hm : m.type = "reminder"
    · cases hd : m.data with
      | some d => simp [step, hfind, handleFrame, hm, hd]
      | none => simp [step, hfind, handleFrame, hm, hd]
    · simp [step, hfind, handleFrame, hm]

/-- C10 witness: on a connected session, a concrete malformed frame leaves
the state untouched with no callback, and a concrete well-formed frame is
delivered to the callback. -/
theorem bad_frame_is_swallowed_witness :
    step env0
      { sockets := [⟨0, ReadyState.opened⟩], nextSid := 1, wsRef := some 0
        reconnectTimer := none, reminders := [] }
      (Event.frame 0 (Frame.bad "not json")) =
      ({ sockets := [⟨0, ReadyState.opened⟩], nextSid := 1, wsRef := some 0
         reconnectTimer := none, reminders := [] }, [])
    ∧ Output.callbackInvoked ⟨"ping", none, "t"⟩ ∈
        (step env0
          { sockets := [⟨0, ReadyState.opened⟩], nextSid := 1, wsRef := some 0
            reconnectTimer := none, reminders := [] }
          (Event.frame 0 (Frame.ok ⟨"ping", none, "t"⟩))).2 := by
  have h := bad_frame_is_swallowed env0
    { sockets := [⟨0, ReadyState.opened⟩], nextSid := 1, wsRef := some 0
      reconnectTimer := none, reminders := [] } 0 "not json" rfl
  exact ⟨h.1, h.2.2 ⟨"ping", none, "t"⟩⟩

/-- C1 failing execution: disconnectWebSocket does cancel the pending timer
and drop the socket reference, but the closed socket's own onclose handler
then fires, unconditionally re-arms a 3000 ms reconnect timer (there is no
torn-down flag to check), and when that timer fires a brand-new WebSocket is
created — a reconnect after intentional teardown.  The three conjuncts
evaluate the session on the concrete event sequence: state right after
teardown (reference and timer cleared), the outputs of the subsequent
onclose and timer-fire events (a new socket is created), and the final
state (a fresh connection is referenced). -/
theorem disconnect_then_close_reopens_socket :
    (run env0 initState
        [Event.apiConnect, Event.socketOpened 0, Event.apiDisconnect]).1
      = { sockets := [⟨0, ReadyState.closing⟩], nextSid := 1, wsRef := none
          reconnectTimer := none, reminders := [] }
    ∧ (run env0
        (run env0 initState
          [Event.apiConnect, Event.socketOpened 0, Event.apiDisconnect]).1
        [Event.socketClosed 0, Event.timerFired]).2
      = [Output.timerSet 3000, Output.socketCreated 1]
    ∧ (run env0 initState
        [Event.apiConnect, Event.socketOpened 0, Event.apiDisconnect,
         Event.socketClosed 0, Event.timerFired]).1.wsRef = some 1 := by
  decide

/-- C4 counterexample: the reconnect-completion handler does not poll.  On
the concrete run in which the connection drops and is automatically
re-established, the onopen step of the new socket emits no poll request at
all — refuting the claim that the unread set is additionally polled on
every reconnect of the push channel. -/
theorem reconnect_open_does_not_poll :
    (step env0
      (run env0 initState
        [Event.apiConnect, Event.socketOpened 0, Event.socketClosed 0,
         Event.timerFired]).1
      (Event.socketOpened 1)).2 = []
    ∧ Output.polled ∉
        (step env0
          (run env0 initState
            [Event.apiConnect, Event.socketOpened 0, Event.socketClosed 0,
             Event.timerFired]).1
          (Event.socketOpened 1)).2 := by
  decide

/-- C4 amended: the unread set is polled on a fixed 30-second interval only
— every interval tick refreshes the in-app unread list in every session
state, connected or not (so a record raised while disconnected is surfaced
by the next tick after reconnect), the interval is the fixed 30000 ms from
the source, and the connection-opened handler itself never issues a poll
(its only effect is clearing the reconnect timer). -/
theorem poll_fixed_interval_refreshes_unread (env : Env) (s : ClientState)
    (unread : List Nat) :
    step env s (Event.pollTick unread) = ({ s with reminders := unread }, [Output.polled])
    ∧ pollIntervalMs = 30000
    ∧ (∀ i, (step env s (Event.socketOpened i)).2 = []
          ∨ (step env s (Event.socketOpened i)).2 = [Output.timerCleared]) := by
  refine ⟨rfl, rfl, ?_⟩
  intro i
  cases hl : lookupSocket s.sockets i with
  | none => left; simp [step, hl]
  | some sk =>
      obtain ⟨sid, st⟩ := sk
      cases st <;> cases htm : s.reconnectTimer <;> simp [step, hl, htm]

end Jarvis
